import Mathlib

/-!
Shallow embedding of the subscription Store of ItserX/SubController
(`internal/storage` PostgresRepository) together with the behaviour of its
Postgres backend, and proofs of the specification claims about it.

The Go repository stores subscription rows in a Postgres table and offers
Create / Get / Update / Delete / List / GetTotalCost.  We model the table as a
`List Row`, UUIDs as natural numbers (`0` playing the role of `uuid.Nil`), and
each repository method as a pure function from the table to a result, the new
table, and the number of SQL statements issued to the backend (`backendCalls`),
so that "fails before any backend call" is expressible.
-/

/-- UUIDs are opaque identifiers; we model them as naturals.  `uuid.Nil`
(the zero UUID, which `GetTotalCost` treats as "no user filter") is `0`. -/
abbrev UUID := Nat

/-- The zero UUID `uuid.Nil`. -/
def uuidNil : UUID := 0

/-- Numeric value of an ASCII digit character, `10` for a non-digit.  Mirrors
the digit test `isDigit`/`getnum` of Go `time` parsing restricted to ASCII. -/
def digitVal (c : Char) : Nat :=
  if c = '0' then 0
  else if c = '1' then 1
  else if c = '2' then 2
  else if c = '3' then 3
  else if c = '4' then 4
  else if c = '5' then 5
  else if c = '6' then 6
  else if c = '7' then 7
  else if c = '8' then 8
  else if c = '9' then 9
  else 10

/-- The ASCII digit character for `n < 10` (used when formatting dates). -/
def digitChar (n : Nat) : Char :=
  if n = 0 then '0'
  else if n = 1 then '1'
  else if n = 2 then '2'
  else if n = 3 then '3'
  else if n = 4 then '4'
  else if n = 5 then '5'
  else if n = 6 then '6'
  else if n = 7 then '7'
  else if n = 8 then '8'
  else '9'

/-- A month-year date as stored in the `start_date` / `end_date` columns.
The Go code stores a `time.Time` whose day is always 1, so only month and
year are significant. -/
structure MonthDate where
  month : Nat
  year : Nat
deriving DecidableEq, Repr

/-- Linearisation of a month-year date; SQL comparison of the stored dates
(equal days) is exactly comparison of this index. -/
def MonthDate.idx (d : MonthDate) : Nat := d.year * 12 + (d.month - 1)

/-- Embeds Go `time.Parse("01-2006", s)`: the layout `01` (zero-padded month)
demands exactly two digits, `2006` demands exactly four digits, the parsed
month must lie in `1..12`, and no extra input may remain.  Returns `none`
exactly when the Go call returns a `*time.ParseError`. -/
def parseMonthYear (s : String) : Option MonthDate :=
  match s.data with
  | [m1, m2, dash, y1, y2, y3, y4] =>
    if dash = '-' ∧ digitVal m1 < 10 ∧ digitVal m2 < 10 ∧ digitVal y1 < 10 ∧
        digitVal y2 < 10 ∧ digitVal y3 < 10 ∧ digitVal y4 < 10 then
      if 1 ≤ 10 * digitVal m1 + digitVal m2 ∧ 10 * digitVal m1 + digitVal m2 ≤ 12 then
        some ⟨10 * digitVal m1 + digitVal m2,
          1000 * digitVal y1 + 100 * digitVal y2 + 10 * digitVal y3 + digitVal y4⟩
      else none
    else none
  | _ => none

/-- Embeds Go `t.Format("01-2006")` on the stored dates: two-digit month,
dash, four-digit year (all dates reachable through the repository come from
`parseMonthYear`, whose years have exactly four digits). -/
def formatMonthYear (d : MonthDate) : String :=
  String.mk [digitChar (d.month / 10), digitChar (d.month % 10), '-',
    digitChar (d.year / 1000 % 10), digitChar (d.year / 100 % 10),
    digitChar (d.year / 10 % 10), digitChar (d.year % 10)]

theorem digitChar_digitVal (c : Char) (h : digitVal c < 10) :
    digitChar (digitVal c) = c := by
  by_cases h0 : c = '0'
  · subst h0; decide
  by_cases h1 : c = '1'
  · subst h1; decide
  by_cases h2 : c = '2'
  · subst h2; decide
  by_cases h3 : c = '3'
  · subst h3; decide
  by_cases h4 : c = '4'
  · subst h4; decide
  by_cases h5 : c = '5'
  · subst h5; decide
  by_cases h6 : c = '6'
  · subst h6; decide
  by_cases h7 : c = '7'
  · subst h7; decide
  by_cases h8 : c = '8'
  · subst h8; decide
  by_cases h9 : c = '9'
  · subst h9; decide
  exfalso
  unfold digitVal at h
  rw [if_neg h0, if_neg h1, if_neg h2, if_neg h3, if_neg h4, if_neg h5, if_neg h6,
    if_neg h7, if_neg h8, if_neg h9] at h
  exact absurd h (by omega)

/-- Parsing is a section of formatting: a string accepted by
`parseMonthYear` is returned verbatim by `formatMonthYear`. -/
theorem format_parseMonthYear (s : String) (d : MonthDate)
    (h : parseMonthYear s = some d) : formatMonthYear d = s := by
  unfold parseMonthYear at h
  cases s with
  | mk data =>
    split at h
    case _ m1 m2 dash y1 y2 y3 y4 hq =>
      have hdata : data = [m1, m2, dash, y1, y2, y3, y4] := hq
      subst hdata
      split_ifs at h with h1 h2
      obtain ⟨hd, hm1, hm2, hy1, hy2, hy3, hy4⟩ := h1
      obtain ⟨hml, hmu⟩ := h2
      injection h with h
      subst h
      subst hd
      clear hml hmu
      have e1 : (10 * digitVal m1 + digitVal m2) / 10 = digitVal m1 := by omega
      have e2 : (10 * digitVal m1 + digitVal m2) % 10 = digitVal m2 := by omega
      have e3 : (1000 * digitVal y1 + 100 * digitVal y2 + 10 * digitVal y3 + digitVal y4)
          / 1000 % 10 = digitVal y1 := by omega
      have e4 : (1000 * digitVal y1 + 100 * digitVal y2 + 10 * digitVal y3 + digitVal y4)
          / 100 % 10 = digitVal y2 := by omega
      have e5 : (1000 * digitVal y1 + 100 * digitVal y2 + 10 * digitVal y3 + digitVal y4)
          / 10 % 10 = digitVal y3 := by omega
      have e6 : (1000 * digitVal y1 + 100 * digitVal y2 + 10 * digitVal y3 + digitVal y4)
          % 10 = digitVal y4 := by omega
      show String.mk [digitChar ((10 * digitVal m1 + digitVal m2) / 10),
        digitChar ((10 * digitVal m1 + digitVal m2) % 10), '-',
        digitChar ((1000 * digitVal y1 + 100 * digitVal y2 + 10 * digitVal y3 + digitVal y4)
          / 1000 % 10),
        digitChar ((1000 * digitVal y1 + 100 * digitVal y2 + 10 * digitVal y3 + digitVal y4)
          / 100 % 10),
        digitChar ((1000 * digitVal y1 + 100 * digitVal y2 + 10 * digitVal y3 + digitVal y4)
          / 10 % 10),
        digitChar ((1000 * digitVal y1 + 100 * digitVal y2 + 10 * digitVal y3 + digitVal y4)
          % 10)] = String.mk [m1, m2, '-', y1, y2, y3, y4]
      rw [e1, e2, e3, e4, e5, e6,
        digitChar_digitVal m1 hm1, digitChar_digitVal m2 hm2,
        digitChar_digitVal y1 hy1, digitChar_digitVal y2 hy2,
        digitChar_digitVal y3 hy3, digitChar_digitVal y4 hy4]
    case _ => exact absurd h (by simp)

/-- A row of the `subscriptions` table: columns `sub_id`, `user_id`,
`service_name`, `price`, `start_date`, `end_date` (nullable). -/
structure Row where
  subId : UUID
  userId : UUID
  serviceName : String
  price : Int
  startDate : MonthDate
  endDate : Option MonthDate
deriving DecidableEq, Repr

/-- The `types.Subscription` value exchanged with callers: dates travel as
strings and an empty `endDate` means "no end date" (Go zero value of the
omitempty field). -/
structure Subscription where
  serviceName : String
  price : Int
  userId : UUID
  startDate : String
  endDate : String
deriving DecidableEq, Repr

/-- Error kinds a Store operation can surface, as distinguishable by a
caller: the sentinel `ErrNotFound` (via `errors.Is`), a wrapped
`*time.ParseError` from date parsing (via `errors.As`), or a wrapped backend
error. -/
inductive StoreError where
  | notFound
  | invalidDateFormat
  | storageFailure
deriving DecidableEq, Repr

/-- Outcome of one repository method: the returned value or error, the table
after the call, and how many SQL statements were issued to the backend
(0 when the method fails before touching storage). -/
structure OpResult (α : Type) where
  res : Except StoreError α
  db : List Row
  backendCalls : Nat
deriving Repr

/-- Parses the optional `end_date` field exactly as `Create`/`Update` do:
the empty string means a NULL end date, anything else must parse as
month-year; `none` signals the invalid-date early return. -/
def parseOptEnd (s : String) : Option (Option MonthDate) :=
  if s = "" then some none else (parseMonthYear s).map some

/-- Embeds `PostgresRepository.Create` together with the backend INSERT:
parses the dates first (failing before any statement), then inserts a fresh
row.  `newId` stands for the value drawn by `uuid.New()`; the table's
primary key on `sub_id` makes the INSERT fail when that id already exists. -/
def createOp (db : List Row) (newId : UUID) (sub : Subscription) : OpResult UUID :=
  match parseMonthYear sub.startDate with
  | none => ⟨.error .invalidDateFormat, db, 0⟩
  | some sd =>
    match parseOptEnd sub.endDate with
    | none => ⟨.error .invalidDateFormat, db, 0⟩
    | some ed =>
      if db.any (fun r => r.subId == newId) then ⟨.error .storageFailure, db, 1⟩
      else ⟨.ok newId,
        db ++ [⟨newId, sub.userId, sub.serviceName, sub.price, sd, ed⟩], 1⟩

/-- Converts a row back to the caller-facing `Subscription`, as the `Scan`
loop of `Get`/`List` does: dates formatted with `Format("01-2006")`, a NULL
end date left as the empty string. -/
def rowToSub (r : Row) : Subscription :=
  { serviceName := r.serviceName
    price := r.price
    userId := r.userId
    startDate := formatMonthYear r.startDate
    endDate := match r.endDate with
      | none => ""
      | some d => formatMonthYear d }

/-- Embeds `PostgresRepository.Get` with the backend point SELECT on
`sub_id`: zero rows gives `ErrNotFound`, otherwise the row is scanned and
re-formatted.  The table is never modified by a read. -/
def getOp (db : List Row) (id : UUID) : OpResult Subscription :=
  match db.find? (fun r => r.subId == id) with
  | none => ⟨.error .notFound, db, 1⟩
  | some r => ⟨.ok (rowToSub r), db, 1⟩

/-- The replacement row the UPDATE statement produces: the SET clause
rewrites `service_name`, `price`, `start_date`, `end_date` only, so `sub_id`
and `user_id` keep their stored values. -/
def updateRow (sub : Subscription) (sd : MonthDate) (ed : Option MonthDate)
    (r : Row) : Row :=
  { r with
    serviceName := sub.serviceName
    price := sub.price
    startDate := sd
    endDate := ed }

/-- Embeds `PostgresRepository.Update` with the backend UPDATE on `sub_id`:
dates parse first (failing before any statement); the statement rewrites
every matching row and reports the affected count, and `RowsAffected == 0`
becomes `ErrNotFound`. -/
def updateOp (db : List Row) (id : UUID) (sub : Subscription) : OpResult Unit :=
  match parseMonthYear sub.startDate with
  | none => ⟨.error .invalidDateFormat, db, 0⟩
  | some sd =>
    match parseOptEnd sub.endDate with
    | none => ⟨.error .invalidDateFormat, db, 0⟩
    | some ed =>
      if (db.filter (fun r => r.subId == id)).length = 0 then
        ⟨.error .notFound, db.map (fun r => if r.subId == id then updateRow sub sd ed r else r), 1⟩
      else
        ⟨.ok (), db.map (fun r => if r.subId == id then updateRow sub sd ed r else r), 1⟩

/-- Embeds `PostgresRepository.Delete` with the backend DELETE on `sub_id`:
matching rows are removed, and an affected count of zero becomes
`ErrNotFound`. -/
def deleteOp (db : List Row) (id : UUID) : OpResult Unit :=
  if (db.filter (fun r => r.subId == id)).length = 0 then
    ⟨.error .notFound, db.filter (fun r => !(r.subId == id)), 1⟩
  else
    ⟨.ok (), db.filter (fun r => !(r.subId == id)), 1⟩

/-- The WHERE clause of the cost query, on one row:
`start_date <= $1 AND (end_date >= $2 OR end_date IS NULL)` with
`$1 = period_end` and `$2 = period_start` (SQL NULL comparison makes the
first disjunct false on a NULL end date, the IS NULL disjunct then holds). -/
def rowMatchesPeriod (ps pe : MonthDate) (r : Row) : Bool :=
  decide (r.startDate.idx ≤ pe.idx) &&
    (match r.endDate with
      | none => true
      | some ed => decide (ps.idx ≤ ed.idx))

/-- The placeholder indices referenced by the SQL text `GetTotalCost`
concatenates: the base query uses `$1`/`$2`, the user filter appends a `$3`
clause, the service filter appends a `$4` clause. -/
def totalCostPlaceholders (userId : UUID) (serviceName : String) : List Nat :=
  [1, 2] ++ (if userId ≠ uuidNil then [3] else []) ++
    (if serviceName ≠ "" then [4] else [])

/-- The number of bind arguments `GetTotalCost` passes alongside the query:
`endTime`, `startTime`, then optionally the user id and the service name. -/
def totalCostArgCount (userId : UUID) (serviceName : String) : Nat :=
  2 + (if userId ≠ uuidNil then 1 else 0) + (if serviceName ≠ "" then 1 else 0)

/-- The parameter count Postgres derives for a prepared statement: the
highest placeholder index occurring in the text.  `database/sql` rejects the
call (before returning any rows) when the supplied argument count differs. -/
def statementParamCount (placeholders : List Nat) : Nat :=
  placeholders.foldr max 0

/-- The full row predicate of the cost query including the optional
conjunctive filters on `user_id` and `service_name`. -/
def totalCostRowFilter (ps pe : MonthDate) (userId : UUID) (serviceName : String)
    (r : Row) : Bool :=
  rowMatchesPeriod ps pe r &&
    (if userId ≠ uuidNil then r.userId == userId else true) &&
    (if serviceName ≠ "" then r.serviceName == serviceName else true)

/-- Embeds `PostgresRepository.GetTotalCost` with its backend query: both
period bounds parse first (failing before any statement); the statement is
the base overlap query plus conditionally appended filter clauses, executed
with the conditionally appended argument list.  When the placeholder indices
in the text demand more parameters than are bound (the service-name clause
uses `$4` even when no `$3` user clause was added), the backend call fails;
otherwise the result is `COALESCE(SUM(price), 0)` over the matching rows. -/
def getTotalCostOp (db : List Row) (userId : UUID) (serviceName : String)
    (periodStart periodEnd : String) : OpResult Int :=
  match parseMonthYear periodStart with
  | none => ⟨.error .invalidDateFormat, db, 0⟩
  | some ps =>
    match parseMonthYear periodEnd with
    | none => ⟨.error .invalidDateFormat, db, 0⟩
    | some pe =>
      if statementParamCount (totalCostPlaceholders userId serviceName) ≠
          totalCostArgCount userId serviceName then
        ⟨.error .storageFailure, db, 1⟩
      else
        ⟨.ok (((db.filter (totalCostRowFilter ps pe userId serviceName)).map
          Row.price).sum), db, 1⟩

/-- Descending start-date order used by the List query (`ORDER BY start_date
DESC`). -/
def rowDateGE (a b : Row) : Prop := b.startDate.idx ≤ a.startDate.idx

instance : DecidableRel rowDateGE := fun _ _ => Nat.decLe _ _

instance : IsTotal Row rowDateGE :=
  ⟨fun a b => by unfold rowDateGE; exact Nat.le_total _ _⟩

instance : IsTrans Row rowDateGE :=
  ⟨fun a b c h1 h2 => by unfold rowDateGE at h1 h2 ⊢; exact Nat.le_trans h2 h1⟩

/-- The row sequence the List query returns: all rows, ordered by
`start_date` descending. -/
def listRows (db : List Row) : List Row :=
  List.insertionSort rowDateGE db

/-- Embeds `PostgresRepository.List` with its backend full scan: every row is
scanned into a `Subscription` in the query's descending start-date order; an
empty table yields the empty list, not an error. -/
def listOp (db : List Row) : OpResult (List Subscription) :=
  ⟨.ok ((listRows db).map rowToSub), db, 1⟩

/-- Modelled from the spec wording of the GetTotalCost qualifying predicate,
for comparison with the query the code builds: a record qualifies when its
start date is at most `period_end` and its end date is at least
`period_start` or absent. -/
def specQualifies (ps pe : MonthDate) (r : Row) : Bool :=
  decide (r.startDate.idx ≤ pe.idx) &&
    ((match r.endDate with
      | some ed => decide (ps.idx ≤ ed.idx)
      | none => false) || decide (r.endDate = none))

theorem totalCostRowFilter_nofilter (ps pe : MonthDate) (r : Row) :
    totalCostRowFilter ps pe uuidNil "" r = specQualifies ps pe r := by
  unfold totalCostRowFilter rowMatchesPeriod specQualifies uuidNil
  cases h : r.endDate <;> simp [h]

/-- C1.  With no user or service filter, GetTotalCost on parseable period
bounds issues its single query and returns the sum of `price` over exactly
the records qualifying under the spec's overlap predicate, and returns 0
(not an error) when no record qualifies. -/
theorem claim_C1 (db : List Row) (ps pe : String) (dps dpe : MonthDate)
    (h1 : parseMonthYear ps = some dps) (h2 : parseMonthYear pe = some dpe) :
    getTotalCostOp db uuidNil "" ps pe =
      ⟨.ok (((db.filter (specQualifies dps dpe)).map Row.price).sum), db, 1⟩ ∧
    ((∀ r ∈ db, specQualifies dps dpe r = false) →
      getTotalCostOp db uuidNil "" ps pe = ⟨.ok 0, db, 1⟩) := by
  have hmain : getTotalCostOp db uuidNil "" ps pe =
      ⟨.ok (((db.filter (specQualifies dps dpe)).map Row.price).sum), db, 1⟩ := by
    simp only [getTotalCostOp, h1, h2]
    rw [if_neg (by decide)]
    rw [List.filter_congr (fun r _ => totalCostRowFilter_nofilter dps dpe r)]
  refine ⟨hmain, fun hall => ?_⟩
  rw [hmain]
  have hnil : db.filter (specQualifies dps dpe) = [] :=
    List.filter_eq_nil_iff.mpr (fun a ha => by simp [hall a ha])
  rw [hnil]
  rfl

/-- Record used in the C1 witness: service A, price 100, active 01-2024
through 12-2024. -/
def rowA : Row := ⟨1, 2, "A", 100, ⟨1, 2024⟩, some ⟨12, 2024⟩⟩

/-- Record used in the C1 witness: service B, price 200, open-ended from
06-2024. -/
def rowB : Row := ⟨2, 3, "B", 200, ⟨6, 2024⟩, none⟩

theorem claim_C1_witness :
    getTotalCostOp [rowA, rowB] uuidNil "" "03-2024" "03-2024" =
      ⟨.ok 100, [rowA, rowB], 1⟩ := by
  have h := claim_C1 [rowA, rowB] "03-2024" "03-2024" ⟨3, 2024⟩ ⟨3, 2024⟩
    (by decide) (by decide)
  rw [h.1]
  rfl

/-- The row used to exhibit the service-only filter failure of
GetTotalCost. -/
def yandexRow : Row := ⟨1, 2, "Yandex", 100, ⟨1, 2024⟩, none⟩

/-- C2.  The user and service filters are conjunctive when both are present,
and the user filter alone works; but contrary to the claim, a non-empty
service filter with no user filter makes the backend call itself fail: the
appended clause references placeholder `$4` while only three arguments are
bound, so the statement's parameter count exceeds the argument count and the
query returns an error instead of the filtered sum. -/
theorem claim_C2 :
    statementParamCount (totalCostPlaceholders uuidNil "Yandex") = 4 ∧
    totalCostArgCount uuidNil "Yandex" = 3 ∧
    getTotalCostOp [yandexRow] uuidNil "Yandex" "01-2024" "12-2024" =
      ⟨.error .storageFailure, [yandexRow], 1⟩ ∧
    getTotalCostOp [yandexRow] 2 "Yandex" "01-2024" "12-2024" =
      ⟨.ok 100, [yandexRow], 1⟩ ∧
    getTotalCostOp [yandexRow] 3 "Yandex" "01-2024" "12-2024" =
      ⟨.ok 0, [yandexRow], 1⟩ := by
  refine ⟨rfl, rfl, rfl, rfl, rfl⟩

theorem rowToSub_mk (sub : Subscription) (newId : UUID) (sd : MonthDate)
    (ed : Option MonthDate) (hs : parseMonthYear sub.startDate = some sd)
    (he : parseOptEnd sub.endDate = some ed) :
    rowToSub ⟨newId, sub.userId, sub.serviceName, sub.price, sd, ed⟩ = sub := by
  obtain ⟨sn, p, uid, sdate, edate⟩ := sub
  simp only at hs he
  have h1 : formatMonthYear sd = sdate := format_parseMonthYear _ _ hs
  unfold parseOptEnd at he
  by_cases hemp : edate = ""
  · rw [if_pos hemp] at he
    injection he with he
    unfold rowToSub
    simp only [← he, h1, hemp]
  · rw [if_neg hemp] at he
    cases hpe : parseMonthYear edate with
    | none => rw [hpe] at he; simp at he
    | some d =>
      rw [hpe] at he
      simp only [Option.map_some'] at he
      injection he with he
      unfold rowToSub
      simp only [← he, h1, format_parseMonthYear _ _ hpe]

/-- C3.  Creating a subscription with parseable dates under a fresh id
succeeds with that id, and Get on the id returns a record equal to the input
in every field (the generated id aside), the absent end date round-tripping
as the empty string. -/
theorem claim_C3 (db : List Row) (newId : UUID) (sub : Subscription)
    (sd : MonthDate) (ed : Option MonthDate)
    (hs : parseMonthYear sub.startDate = some sd)
    (he : parseOptEnd sub.endDate = some ed)
    (hfresh : ∀ r ∈ db, r.subId ≠ newId) :
    (createOp db newId sub).res = .ok newId ∧
    (createOp db newId sub).backendCalls = 1 ∧
    (getOp (createOp db newId sub).db newId).res = .ok sub := by
  have hany : db.any (fun r => r.subId == newId) = false := by
    simp only [List.any_eq_false]
    intro r hr
    simp [hfresh r hr]
  have hcreate : createOp db newId sub =
      ⟨.ok newId, db ++ [⟨newId, sub.userId, sub.serviceName, sub.price, sd, ed⟩], 1⟩ := by
    simp [createOp, hs, he, hany]
  refine ⟨by rw [hcreate], by rw [hcreate], ?_⟩
  rw [hcreate]
  show (getOp (db ++ [⟨newId, sub.userId, sub.serviceName, sub.price, sd, ed⟩]) newId).res
    = .ok sub
  unfold getOp
  rw [List.find?_append]
  have hnone : db.find? (fun r => r.subId == newId) = none :=
    List.find?_eq_none.mpr (fun r hr => by simp [hfresh r hr])
  rw [hnone]
  have hfind : List.find? (fun r => r.subId == newId)
      [(⟨newId, sub.userId, sub.serviceName, sub.price, sd, ed⟩ : Row)] =
      some ⟨newId, sub.userId, sub.serviceName, sub.price, sd, ed⟩ := by
    simp [List.find?]
  rw [Option.none_or, hfind]
  show Except.ok (rowToSub ⟨newId, sub.userId, sub.serviceName, sub.price, sd, ed⟩) =
    Except.ok sub
  rw [rowToSub_mk sub newId sd ed hs he]

/-- Input used by the C3 witness. -/
def spotifySub : Subscription := ⟨"Spotify", 300, 9, "07-2025", "07-2026"⟩

theorem claim_C3_witness :
    (createOp [] 5 spotifySub).res = .ok 5 ∧
    (createOp [] 5 spotifySub).backendCalls = 1 ∧
    (getOp (createOp [] 5 spotifySub).db 5).res = .ok spotifySub :=
  claim_C3 [] 5 spotifySub ⟨7, 2025⟩ (some ⟨7, 2026⟩) (by decide) (by decide)
    (by intro r hr; simp at hr)

theorem update_map_absent (db : List Row) (id : UUID) (sub : Subscription)
    (sd : MonthDate) (ed : Option MonthDate) (h : ∀ r ∈ db, r.subId ≠ id) :
    db.map (fun r => if r.subId == id then updateRow sub sd ed r else r) = db := by
  have hc : ∀ r ∈ db, (if r.subId == id then updateRow sub sd ed r else r) =
      (fun r : Row => r) r := by
    intro r hr
    simp [h r hr]
  rw [List.map_congr_left hc, List.map_id']

/-- C4.  On an id no stored row carries, Get, Update (with parseable dates)
and Delete each fail with the NotFound error kind, issue their single
statement, and leave the record set unchanged. -/
theorem claim_C4 (db : List Row) (id : UUID) (sub : Subscription)
    (sd : MonthDate) (ed : Option MonthDate)
    (hs : parseMonthYear sub.startDate = some sd)
    (he : parseOptEnd sub.endDate = some ed)
    (habs : ∀ r ∈ db, r.subId ≠ id) :
    getOp db id = ⟨.error .notFound, db, 1⟩ ∧
    updateOp db id sub = ⟨.error .notFound, db, 1⟩ ∧
    deleteOp db id = ⟨.error .notFound, db, 1⟩ := by
  have hfilter : db.filter (fun r => r.subId == id) = [] :=
    List.filter_eq_nil_iff.mpr (fun r hr => by simp [habs r hr])
  refine ⟨?_, ?_, ?_⟩
  · have hnone : db.find? (fun r => r.subId == id) = none :=
      List.find?_eq_none.mpr (fun r hr => by simp [habs r hr])
    simp [getOp, hnone]
  · simp only [updateOp, hs, he]
    rw [if_pos (by rw [hfilter]; rfl)]
    rw [update_map_absent db id sub sd ed habs]
  · unfold deleteOp
    rw [if_pos (by rw [hfilter]; rfl)]
    have hkeep : db.filter (fun r => !(r.subId == id)) = db :=
      List.filter_eq_self.mpr (fun r hr => by simp [habs r hr])
    rw [hkeep]

theorem claim_C4_witness :
    getOp [yandexRow] 9 = ⟨.error .notFound, [yandexRow], 1⟩ ∧
    updateOp [yandexRow] 9 spotifySub = ⟨.error .notFound, [yandexRow], 1⟩ ∧
    deleteOp [yandexRow] 9 = ⟨.error .notFound, [yandexRow], 1⟩ :=
  claim_C4 [yandexRow] 9 spotifySub ⟨7, 2025⟩ (some ⟨7, 2026⟩) (by decide) (by decide)
    (by intro r hr; simp at hr; simp [hr, yandexRow])

/-- C5.  Update on an existing id (with parseable dates) succeeds with one
statement and replaces, in every matching position, exactly the fields
`service_name`, `price`, `start_date`, `end_date` with the input values,
keeping the row's `sub_id` and `user_id` (the input's `user_id`
notwithstanding) and leaving rows with other ids untouched. -/
theorem claim_C5 (db : List Row) (id : UUID) (sub : Subscription)
    (sd : MonthDate) (ed : Option MonthDate)
    (hs : parseMonthYear sub.startDate = some sd)
    (he : parseOptEnd sub.endDate = some ed)
    (hex : ∃ r ∈ db, r.subId = id) :
    (updateOp db id sub).res = .ok () ∧
    (updateOp db id sub).backendCalls = 1 ∧
    (updateOp db id sub).db.length = db.length ∧
    (∀ (i : Nat) (x : Row), db[i]? = some x →
      (x.subId = id → (updateOp db id sub).db[i]? = some (updateRow sub sd ed x)) ∧
      (x.subId ≠ id → (updateOp db id sub).db[i]? = some x)) ∧
    (∀ r : Row, (updateRow sub sd ed r).subId = r.subId ∧
      (updateRow sub sd ed r).userId = r.userId ∧
      (updateRow sub sd ed r).serviceName = sub.serviceName ∧
      (updateRow sub sd ed r).price = sub.price ∧
      (updateRow sub sd ed r).startDate = sd ∧
      (updateRow sub sd ed r).endDate = ed) := by
  obtain ⟨w, hw, hwid⟩ := hex
  have hne : ¬ (db.filter (fun r => r.subId == id)).length = 0 := by
    intro hzero
    have hnil := List.length_eq_zero.mp hzero
    have := List.filter_eq_nil_iff.mp hnil w hw
    simp [hwid] at this
  have hupd : updateOp db id sub =
      ⟨.ok (), db.map (fun r => if r.subId == id then updateRow sub sd ed r else r), 1⟩ := by
    simp only [updateOp, hs, he]
    rw [if_neg hne]
  refine ⟨by rw [hupd], by rw [hupd], by rw [hupd]; simp, ?_, ?_⟩
  · intro i x hx
    have hget : (updateOp db id sub).db[i]? =
        some (if x.subId == id then updateRow sub sd ed x else x) := by
      rw [hupd]
      show (db.map (fun r => if r.subId == id then updateRow sub sd ed r else r))[i]? =
        some (if x.subId == id then updateRow sub sd ed x else x)
      rw [List.getElem?_map, hx, Option.map_some']
    constructor
    · intro hid
      rw [hget, if_pos (by simp [hid])]
    · intro hid
      rw [hget, if_neg (by simp [hid])]
  · intro r
    exact ⟨rfl, rfl, rfl, rfl, rfl, rfl⟩

/-- Update input carrying a different user id, used by the C5 witness. -/
def takeoverSub : Subscription := ⟨"NewService", 55, 42, "02-2024", ""⟩

theorem claim_C5_witness :
    (updateOp [yandexRow] 1 takeoverSub).res = .ok () ∧
    (updateOp [yandexRow] 1 takeoverSub).db[0]? =
      some (updateRow takeoverSub ⟨2, 2024⟩ none yandexRow) ∧
    (updateRow takeoverSub ⟨2, 2024⟩ none yandexRow).userId = 2 := by
  have h := claim_C5 [yandexRow] 1 takeoverSub ⟨2, 2024⟩ none (by decide) (by decide)
    ⟨yandexRow, by simp, by decide⟩
  exact ⟨h.1, (h.2.2.2.1 0 yandexRow rfl).1 (by decide), rfl⟩

/-- C6.  Unparseable dates are rejected with the InvalidDateFormat kind
before any backend statement is issued (zero backend calls, table
unchanged): GetTotalCost on a bad period bound, and Create/Update on a bad
start date or a non-empty bad end date. -/
theorem claim_C6 (db : List Row) (uid newId id : UUID) (sname ps pe : String)
    (sub : Subscription) :
    ((parseMonthYear ps = none ∨ parseMonthYear pe = none) →
      getTotalCostOp db uid sname ps pe = ⟨.error .invalidDateFormat, db, 0⟩) ∧
    (parseMonthYear sub.startDate = none →
      createOp db newId sub = ⟨.error .invalidDateFormat, db, 0⟩ ∧
      updateOp db id sub = ⟨.error .invalidDateFormat, db, 0⟩) ∧
    (sub.endDate ≠ "" → parseMonthYear sub.endDate = none →
      createOp db newId sub = ⟨.error .invalidDateFormat, db, 0⟩ ∧
      updateOp db id sub = ⟨.error .invalidDateFormat, db, 0⟩) := by
  refine ⟨?_, ?_, ?_⟩
  · rintro (h | h)
    · simp [getTotalCostOp, h]
    · cases hps : parseMonthYear ps with
      | none => simp [getTotalCostOp, hps]
      | some dps => simp [getTotalCostOp, hps, h]
  · intro h
    exact ⟨by simp [createOp, h], by simp [updateOp, h]⟩
  · intro hne hpe
    have hoe : parseOptEnd sub.endDate = none := by
      simp [parseOptEnd, hne, hpe]
    cases hps : parseMonthYear sub.startDate with
    | none => exact ⟨by simp [createOp, hps], by simp [updateOp, hps]⟩
    | some sd => exact ⟨by simp [createOp, hps, hoe], by simp [updateOp, hps, hoe]⟩

/-- Input with an unparseable start date (the generic Go layout order, not
month-year), used by witnesses. -/
def badStartSub : Subscription := ⟨"X", 10, 2, "2024-01", ""⟩

theorem claim_C6_witness :
    getTotalCostOp [yandexRow] uuidNil "" "2024-01" "12-2024" =
      ⟨.error .invalidDateFormat, [yandexRow], 0⟩ ∧
    createOp [yandexRow] 7 badStartSub = ⟨.error .invalidDateFormat, [yandexRow], 0⟩ ∧
    updateOp [yandexRow] 1 badStartSub = ⟨.error .invalidDateFormat, [yandexRow], 0⟩ := by
  have h := claim_C6 [yandexRow] uuidNil 7 1 "" "2024-01" "12-2024" badStartSub
  exact ⟨h.1 (Or.inl (by decide)), (h.2.1 (by decide)).1, (h.2.1 (by decide)).2⟩

/-- Rows used by the C7 concrete listing example, with start dates 01-2024,
06-2025 and 03-2020. -/
def rowJan2024 : Row := ⟨1, 2, "A", 100, ⟨1, 2024⟩, none⟩

/-- Second row of the C7 example. -/
def rowJun2025 : Row := ⟨2, 2, "B", 200, ⟨6, 2025⟩, none⟩

/-- Third row of the C7 example. -/
def rowMar2020 : Row := ⟨3, 2, "C", 300, ⟨3, 2020⟩, none⟩

/-- C7.  List succeeds with its single query on every table, returning every
stored record (a permutation of the table) in descending start-date order;
the empty table yields the empty sequence, and the three example records
with starts 01-2024, 06-2025, 03-2020 come back ordered 06-2025, 01-2024,
03-2020. -/
theorem claim_C7 :
    (∀ db : List Row, listOp db = ⟨.ok ((listRows db).map rowToSub), db, 1⟩ ∧
      List.Perm (listRows db) db ∧ List.Sorted rowDateGE (listRows db)) ∧
    listOp ([] : List Row) = ⟨.ok [], [], 1⟩ ∧
    (listOp [rowJan2024, rowJun2025, rowMar2020]).res =
      .ok [⟨"B", 200, 2, "06-2025", ""⟩, ⟨"A", 100, 2, "01-2024", ""⟩,
        ⟨"C", 300, 2, "03-2020", ""⟩] := by
  refine ⟨fun db => ⟨rfl, List.perm_insertionSort rowDateGE db,
    List.sorted_insertionSort rowDateGE db⟩, rfl, ?_⟩
  rfl

/-- C8.  Every Store error is exactly one of the three pairwise distinct
kinds NotFound, InvalidDateFormat, StorageFailure, and in particular the
invalid-date failures of Create and GetTotalCost carry the
InvalidDateFormat kind, not StorageFailure. -/
theorem claim_C8 :
    (∀ e : StoreError, e = .notFound ∨ e = .invalidDateFormat ∨ e = .storageFailure) ∧
    (StoreError.notFound ≠ .invalidDateFormat ∧ StoreError.notFound ≠ .storageFailure ∧
      StoreError.invalidDateFormat ≠ .storageFailure) ∧
    (∀ (db : List Row) (newId : UUID) (sub : Subscription),
      parseMonthYear sub.startDate = none →
        (createOp db newId sub).res = .error .invalidDateFormat) ∧
    (∀ (db : List Row) (uid : UUID) (sname ps pe : String),
      parseMonthYear ps = none →
        (getTotalCostOp db uid sname ps pe).res = .error .invalidDateFormat) := by
  refine ⟨fun e => by cases e <;> simp, by refine ⟨by decide, by decide, by decide⟩, ?_, ?_⟩
  · intro db newId sub h
    simp [createOp, h]
  · intro db uid sname ps pe h
    simp [getTotalCostOp, h]

theorem claim_C8_witness :
    (createOp [] 7 badStartSub).res = .error .invalidDateFormat ∧
    (getTotalCostOp [] uuidNil "" "garbage" "01-2024").res = .error .invalidDateFormat :=
  ⟨claim_C8.2.2.1 [] 7 badStartSub (by decide),
    claim_C8.2.2.2 [] uuidNil "" "garbage" "01-2024" (by decide)⟩

/-- C9 counterexample.  The Store does not validate price: Create accepts a
Subscription with price -5 (parseable dates) and persists the row with the
negative price, so the claimed invariant fails at the Store's operations. -/
theorem claim_C9_counterexample :
    (createOp [] 1 ⟨"X", -5, 7, "01-2024", ""⟩).res = .ok 1 ∧
    (createOp [] 1 ⟨"X", -5, 7, "01-2024", ""⟩).db =
      [⟨1, 7, "X", -5, ⟨1, 2024⟩, none⟩] ∧
    ((-5 : Int) < 0) :=
  ⟨rfl, rfl, by decide⟩

theorem createOp_db_cases (db : List Row) (newId : UUID) (sub : Subscription) :
    (createOp db newId sub).db = db ∨
    ∃ sd ed, (createOp db newId sub).db =
      db ++ [⟨newId, sub.userId, sub.serviceName, sub.price, sd, ed⟩] := by
  cases hps : parseMonthYear sub.startDate with
  | none => exact Or.inl (by simp [createOp, hps])
  | some sd =>
    cases hpe : parseOptEnd sub.endDate with
    | none => exact Or.inl (by simp [createOp, hps, hpe])
    | some ed =>
      by_cases hany : db.any (fun r => r.subId == newId)
      · exact Or.inl (by simp [createOp, hps, hpe, hany])
      · exact Or.inr ⟨sd, ed, by simp [createOp, hps, hpe, hany]⟩

theorem updateOp_db_cases (db : List Row) (id : UUID) (sub : Subscription) :
    (updateOp db id sub).db = db ∨
    ∃ sd ed, (updateOp db id sub).db =
      db.map (fun r => if r.subId == id then updateRow sub sd ed r else r) := by
  cases hps : parseMonthYear sub.startDate with
  | none => exact Or.inl (by simp [updateOp, hps])
  | some sd =>
    cases hpe : parseOptEnd sub.endDate with
    | none => exact Or.inl (by simp [updateOp, hps, hpe])
    | some ed =>
      refine Or.inr ⟨sd, ed, ?_⟩
      simp only [updateOp, hps, hpe]
      by_cases hzero : (db.filter (fun r => r.subId == id)).length = 0
      · rw [if_pos hzero]
      · rw [if_neg hzero]

/-- C9 amended.  The Store persists the input's price unchanged and without
validation: every row in the table after Create or Update either was
already stored or carries exactly the input's price; consequently
non-negativity of prices is preserved exactly when the input's price is
non-negative (it is enforced only by the HTTP boundary's binding, not by
the Store). -/
theorem claim_C9 (db : List Row) (newId id : UUID) (sub : Subscription) :
    (∀ r ∈ (createOp db newId sub).db, r ∈ db ∨ r.price = sub.price) ∧
    (∀ r ∈ (updateOp db id sub).db, r ∈ db ∨ r.price = sub.price) ∧
    (0 ≤ sub.price → (∀ r ∈ db, 0 ≤ r.price) →
      (∀ r ∈ (createOp db newId sub).db, 0 ≤ r.price) ∧
      (∀ r ∈ (updateOp db id sub).db, 0 ≤ r.price)) := by
  have hcreate : ∀ r ∈ (createOp db newId sub).db, r ∈ db ∨ r.price = sub.price := by
    intro r hr
    rcases createOp_db_cases db newId sub with hc | ⟨sd, ed, hc⟩
    · rw [hc] at hr
      exact Or.inl hr
    · rw [hc] at hr
      rcases List.mem_append.mp hr with hmem | hnew
      · exact Or.inl hmem
      · right
        rw [List.mem_singleton.mp hnew]
  have hupdate : ∀ r ∈ (updateOp db id sub).db, r ∈ db ∨ r.price = sub.price := by
    intro r hr
    rcases updateOp_db_cases db id sub with hu | ⟨sd, ed, hu⟩
    · rw [hu] at hr
      exact Or.inl hr
    · rw [hu] at hr
      obtain ⟨a, ha, hfa⟩ := List.mem_map.mp hr
      by_cases hid : a.subId == id
      · right
        rw [if_pos hid] at hfa
        rw [← hfa]
        rfl
      · left
        rw [if_neg hid] at hfa
        rw [← hfa]
        exact ha
  refine ⟨hcreate, hupdate, fun hpos hall => ⟨?_, ?_⟩⟩
  · intro r hr
    rcases hcreate r hr with hmem | heq
    · exact hall r hmem
    · rw [heq]; exact hpos
  · intro r hr
    rcases hupdate r hr with hmem | heq
    · exact hall r hmem
    · rw [heq]; exact hpos

/-- Non-negative-price input used by the C9 witness. -/
def cheapSub : Subscription := ⟨"Y", 5, 2, "01-2024", ""⟩

theorem claim_C9_witness :
    ∀ r ∈ (createOp [] 1 cheapSub).db, 0 ≤ r.price :=
  ((claim_C9 [] 1 1 cheapSub).2.2 (by decide) (by intro r hr; simp at hr)).1

/-- C10 counterexample.  Date parsing at the Store is not lenient: the
single-digit month form "7-2025" does not parse, and Create and Update both
reject it with InvalidDateFormat before touching storage, contrary to the
claimed acceptance. -/
theorem claim_C10_counterexample :
    parseMonthYear "7-2025" = none ∧
    createOp [] 1 ⟨"S", 10, 2, "7-2025", ""⟩ = ⟨.error .invalidDateFormat, [], 0⟩ ∧
    updateOp [] 1 ⟨"S", 10, 2, "7-2025", ""⟩ = ⟨.error .invalidDateFormat, [], 0⟩ :=
  ⟨rfl, rfl, rfl⟩

/-- C10 amended.  The Store's date parsing accepts exactly the canonical
two-digit-month, four-digit-year form: "7-2025" is rejected by Create with
InvalidDateFormat, and every accepted date string is reproduced verbatim by
the formatting Get applies, so a successful Create-then-Get returns the
date byte-for-byte as submitted. -/
theorem claim_C10 :
    parseMonthYear "7-2025" = none ∧
    (createOp [] 1 ⟨"S", 10, 2, "7-2025", ""⟩).res = .error .invalidDateFormat ∧
    (∀ (s : String) (d : MonthDate), parseMonthYear s = some d →
      formatMonthYear d = s) :=
  ⟨rfl, rfl, fun s d h => format_parseMonthYear s d h⟩

theorem claim_C10_witness : formatMonthYear ⟨7, 2025⟩ = "07-2025" :=
  claim_C10.2.2 "07-2025" ⟨7, 2025⟩ (by decide)
